import Mathlib

/-!
Verification of the event-driven refactor pipeline of this repository
(`src/agent_server.py` and the near-duplicate second implementation in
`src/test/test_refactoring_code_2.py`) against its natural-language
specification.

The Python code is shallowly embedded: pure functions become Lean
functions on `String`/`List Char`; the effectful parts (filesystem reads,
`subprocess.run`, websocket sends) are made explicit by passing the
outcome of each external interaction as a parameter, and code that can
raise is modelled with `Except`/`Option`.  Python strings are sequences
of unicode code points, modelled by Lean `String` via its `data` field.
-/

namespace AgentServer

/-- Model of Python's `str.startswith`: the first `pre.length` characters
of `s` equal `pre`. -/
def pyStartsWith (s pre : String) : Bool :=
  pre.data.isPrefixOf s.data

/-- Model of Python's `str.endswith`: `suf` is a suffix of `s`. -/
def pyEndsWith (s suf : String) : Bool :=
  suf.data.isSuffixOf s.data

/-- Scan for Python's substring test `needle in hay`: checks at every
position of the haystack whether the needle starts there. -/
def pyInAux (needle : List Char) : List Char → Bool
  | [] => needle.isEmpty
  | c :: rest => needle.isPrefixOf (c :: rest) || pyInAux needle rest

/-- Model of Python's `needle in hay` substring containment test. -/
def pyIn (needle hay : String) : Bool :=
  pyInAux needle.data hay.data

/-- Model of Python's `a or b` on strings: `b` if `a` is falsy (empty),
else `a`. -/
def pyOrS (a b : String) : String :=
  if a = "" then b else a

/-- Decimal digit list of a natural number, in the order `Nat.toDigits`
produces (most significant first); used to reason about `Nat.repr`. -/
def toDigitsList (n : Nat) : List Char :=
  if _h : n < 10 then [Nat.digitChar n]
  else toDigitsList (n / 10) ++ [Nat.digitChar (n % 10)]
decreasing_by exact Nat.div_lt_self (by omega) (by omega)

/-- Numeric value of a decimal digit character. -/
def digitVal (c : Char) : Nat := c.toNat - '0'.toNat

/-- Value of a decimal digit string, most significant digit first. -/
def parseDigits (l : List Char) : Nat :=
  l.foldl (fun acc c => acc * 10 + digitVal c) 0

/-- Model of `pathlib.PurePath.name` for the paths this program handles:
the part of the path after the last slash. -/
def pathName (p : String) : String :=
  String.mk (p.data.foldl (fun acc c => if c == '/' then [] else acc ++ [c]) [])

/-- Python exceptions that the code under `src/` catches or stores:
`FileNotFoundError` (a missing executable or file), `CalledProcessError`
(raised by `subprocess.run(..., check=True)` on a non-zero exit status,
carrying the exit code and the captured stdout and stderr) and a catch-all
for any other exception, carrying its `str` rendering. -/
inductive PyExc where
  | fileNotFound (msg : String)
  | calledProcessError (returncode : Int) (stdout stderr : String)
  | other (msg : String)
deriving DecidableEq

/-- Model of Python's `str(e)` for the exceptions above.  For
`FileNotFoundError` and generic exceptions the rendered text is carried in
the constructor; for `CalledProcessError` Python renders the command and
the exit status, modelled here keeping the exit status. -/
def strOfPyExc : PyExc → String
  | .fileNotFound m => m
  | .calledProcessError code _ _ =>
      "Command returned non-zero exit status " ++ toString code ++ "."
  | .other m => m

/-- Model of Python's `type(e).__name__` for the exceptions above. -/
def pyExcTypeName : PyExc → String
  | .fileNotFound _ => "FileNotFoundError"
  | .calledProcessError _ _ _ => "CalledProcessError"
  | .other _ => "Exception"

/-- Model of `str(x)` for the `error` attribute of `SubprocessResult`,
which is an exception or `None`. -/
def strOfOptExc : Option PyExc → String
  | none => "None"
  | some e => strOfPyExc e

/-- Outcome of the `subprocess.run(command, input=..., capture_output=True,
text=True, check=True, encoding="utf-8")` call made by the code: with
`check=True` a completed run always has exit status 0 (a non-zero status
raises `CalledProcessError`), so the call either completes carrying the
captured stdout and stderr, or raises. -/
inductive RunOutcome where
  | completed (stdout stderr : String)
  | raised (e : PyExc)
deriving DecidableEq

/-- The `SubprocessResult` class of `src/agent_server.py` (lines 51-58). -/
structure SubprocessResult where
  stdout : String
  stderr : String
  returncode : Int
  error : Option PyExc
deriving DecidableEq

/-- Predicate `SubprocessResult.is_successful` (src/agent_server.py lines 57-58):
`returncode == 0 and error is None`. -/
def SubprocessResult.is_successful (r : SubprocessResult) : Bool :=
  r.returncode == 0 && r.error.isNone

/-- Function `execute_refactor_subprocess` (src/agent_server.py lines 60-72) as a
function of the outcome of its `subprocess.run` call.  The `except`
clauses are tried in source order: `FileNotFoundError`, then
`subprocess.CalledProcessError`, then `Exception`. -/
def execute_refactor_subprocess (command : List String) (_input_data : String)
    (run : RunOutcome) : SubprocessResult :=
  match run with
  | .completed out err =>
      { stdout := out, stderr := err, returncode := 0, error := none }
  | .raised (.fileNotFound m) =>
      { stdout := "", returncode := 0, error := some (.fileNotFound m),
        stderr := "コマンド '" ++ command.headD "" ++ "' が見つかりません。" }
  | .raised (.calledProcessError code out err) =>
      { stdout := out, stderr := err, returncode := code,
        error := some (.calledProcessError code out err) }
  | .raised (.other m) =>
      { stdout := "", returncode := 0, error := some (.other m),
        stderr := "予期せぬサブプロセスエラーが発生しました: " ++ m }

/-- The keyword arguments of a `subprocess.run` invocation, as far as the
claims inspect them.  `timeout` is `subprocess.run`'s timeout parameter;
when the call site does not pass it, it defaults to `None` (no bound). -/
structure SubprocessRunCall where
  command : List String
  inputData : String
  captureOutput : Bool
  text : Bool
  check : Bool
  encoding : String
  timeout : Option Nat
deriving DecidableEq

/-- The `subprocess.run` invocation made by `execute_refactor_subprocess`
(src/agent_server.py lines 62-65): `command, input=input_data,
capture_output=True, text=True, check=True, encoding="utf-8"` and no
`timeout` argument. -/
def execute_refactor_subprocess_runCall (command : List String)
    (input_data : String) : SubprocessRunCall :=
  { command := command, inputData := input_data, captureOutput := true,
    text := true, check := true, encoding := "utf-8", timeout := none }

/-- The `subprocess.run` invocation made by `run_subprocess`
(src/test/test_refactoring_code_2.py lines 172-179): the same keyword
arguments, again with no `timeout` argument. -/
def run_subprocess_runCall (command : List String)
    (input_text : String) : SubprocessRunCall :=
  { command := command, inputData := input_text, captureOutput := true,
    text := true, check := true, encoding := "utf-8", timeout := none }

/-- A raw filesystem event as handed to the watchdog handlers: the source
path and whether the event concerns a directory. -/
structure ChangeEvent where
  src_path : String
  is_directory : Bool
deriving DecidableEq

/-- Predicate `is_watchable_file` (src/agent_server.py lines 22-24):
`not event.is_directory and path.endswith('.py') and 'agent_server.py' not
in path`.  Note the last conjunct is a substring test on the whole path. -/
def is_watchable_file (event : ChangeEvent) : Bool :=
  !event.is_directory && pyEndsWith event.src_path ".py" &&
    !pyIn "agent_server.py" event.src_path

/-- Follows the spec's words, for comparison with `is_watchable_file`
(the definition from the source): "`ChangeFilter.isEligible` is true iff
the event is a file (not directory), has the watched extension, and is not
the service's own implementation file" — the service's own implementation
file being the file named `agent_server.py`. -/
def spec_isEligible (event : ChangeEvent) : Bool :=
  !event.is_directory && pyEndsWith event.src_path ".py" &&
    !(pathName event.src_path == "agent_server.py")

/-- Function `generate_task_id` (src/test/test_refactoring_code_2.py lines 128-130):
`f"task-{filename}-{mtime}"`.  This is also the value computed by
`generate_task_id` of src/agent_server.py lines 26-27 once
`file_path.stat().st_mtime` has been read.  The modification timestamp is
modelled as a natural number rendered in decimal; Python renders distinct
(finite) timestamps as distinct text the same way. -/
def generate_task_id (filename : String) (mtime : Nat) : String :=
  "task-" ++ filename ++ "-" ++ Nat.repr mtime

/-- Function `construct_gemini_input` (src/agent_server.py lines 29-30). -/
def construct_gemini_input (prompt code : String) : String :=
  prompt ++ "\n---\n" ++ code

/-- Model of `pathlib`'s `/` operator (`PurePath.__truediv__`) on POSIX
paths as used at src/agent_server.py line 33: joining with an absolute
right operand discards the left operand entirely. -/
def posixPathJoin (base child : String) : String :=
  if pyStartsWith child "/" then child else base ++ "/" ++ child

/-- Function `determine_gemini_command` (src/agent_server.py lines 32-34, identical
to `get_gemini_command` of src/test/test_refactoring_code_2.py lines
159-162), as a function of the user's home directory and of which paths
exist on disk: `Path.home() / "/usr/local/bin/gemini"`, returned as a
single-element command when it exists, else the bare command `gemini`. -/
def determine_gemini_command (home : String)
    (pathExists : String → Bool) : List String :=
  let gemini_cli_path := posixPathJoin home "/usr/local/bin/gemini"
  if pathExists gemini_cli_path then [gemini_cli_path] else ["gemini"]

/-- The line-boundary characters of Python's `str.splitlines`. -/
def isPyLineBreak (c : Char) : Bool :=
  c == '\n' || c == '\r' || c == '\x0b' || c == '\x0c' ||
  c == '\x1c' || c == '\x1d' || c == '\x1e' || c == '\u0085' ||
  c == '\u2028' || c == '\u2029'

/-- Accumulator pass of Python's `str.splitlines(keepends=True)`:
`acc` holds the current (reversed) unfinished line. -/
def splitlinesAux : List Char → List Char → List (List Char)
  | [], acc => if acc.isEmpty then [] else [acc.reverse]
  | '\r' :: '\n' :: rest, acc => (acc.reverse ++ ['\r', '\n']) :: splitlinesAux rest []
  | c :: rest, acc =>
      if isPyLineBreak c then (acc.reverse ++ [c]) :: splitlinesAux rest []
      else splitlinesAux rest (c :: acc)

/-- Model of Python's `str.splitlines(keepends=True)`. -/
def pySplitlinesKeepends (s : String) : List String :=
  (splitlinesAux s.data []).map String.mk

/-- Modelled from the spec: the hunk body that `difflib.unified_diff`
emits after its two header lines.  The standard library's
`difflib` is not part of this repository's source, so the body is
represented by one whole-file hunk in the standard format ("`@@` hunk
markers", `-`/`+` prefixed lines); no claim inspects the hunk lines. -/
def unifiedHunkBody (a b : List String) : List String :=
  ("@@ -1," ++ Nat.repr a.length ++ " +1," ++ Nat.repr b.length ++ " @@\n")
    :: (a.map (fun l => "-" ++ l) ++ b.map (fun l => "+" ++ l))

/-- Modelled from the spec: Python's `difflib.unified_diff`, a standard
library generator whose source is not part of this repository, modelled
at its documented interface (spec §4.4: "standard unified-diff text
block", "`diff(x, x, f)` yields an empty change set").  Comparing two
equal line sequences yields no delta lines at all; for unequal sequences
the delta starts with the `--- fromfile` and `+++ tofile` header lines
(each terminated by the default line terminator), followed by hunks. -/
def difflib_unified_diff (a b : List String) (fromfile tofile : String) :
    List String :=
  if a = b then []
  else ("--- " ++ fromfile ++ "\n") :: ("+++ " ++ tofile ++ "\n")
        :: unifiedHunkBody a b

/-- Function `generate_diff` (src/agent_server.py lines 36-43): unified diff of the
`splitlines(keepends=True)` of the two texts, with
`fromfile=f'a/{filename}'` and `tofile=f'b/{filename} (refactored)'`,
joined into one string. -/
def generate_diff (original refactored filename : String) : String :=
  String.join (difflib_unified_diff
    (pySplitlinesKeepends original) (pySplitlinesKeepends refactored)
    ("a/" ++ filename) ("b/" ++ filename ++ " (refactored)"))

/-- Function `calculate_diff` (src/test/test_refactoring_code_2.py lines 149-157)
is textually identical to `generate_diff` of src/agent_server.py. -/
def calculate_diff (original refactored filename : String) : String :=
  generate_diff original refactored filename

/-- A pipeline message as handed to the broadcaster: the dict built by
`create_message_payload` / `create_payload` before `json.dumps`
(serialization by the standard library is injective on these dicts and is
not modelled). -/
structure Payload where
  id : String
  type : String
  filename : String
  data : List (String × String)
deriving DecidableEq

/-- Function `create_message_payload` (src/agent_server.py lines 45-48):
`{'id': task_id, 'type': msg_type, 'filename': filename, **data}`. -/
def create_message_payload (task_id filename msg_type : String)
    (data : List (String × String)) : Payload :=
  { id := task_id, type := msg_type, filename := filename, data := data }

/-- Function `create_payload` (src/test/test_refactoring_code_2.py lines 132-139):
the same dict with a single variant-specific entry. -/
def create_payload (task_id msg_type filename content_key content_value : String) :
    Payload :=
  { id := task_id, type := msg_type, filename := filename,
    data := [(content_key, content_value)] }

/-- Function `format_error_html` (src/test/test_refactoring_code_2.py lines
141-147). -/
def format_error_html (error_message : String) : String :=
  "<strong style='color: red;'>エラーが発生しました:</strong>" ++
  "<pre style='white-space: pre-wrap; background-color: #fbebeb; padding: 10px; border-radius: 4px;'>" ++
  error_message ++ "</pre>"

/-- A live websocket connection handle, identified by a number; its send
behaviour is supplied separately when a broadcast is modelled. -/
abbrev Subscriber := Nat

/-- What one `broadcast` call did: which registered connections'
`send_text` succeeded, the registry afterwards, and whether the call
itself raised to its caller. -/
structure BroadcastResult where
  delivered : List Subscriber
  connectionsAfter : List Subscriber
  raised : Bool
deriving DecidableEq

/-- Method `ConnectionManager.broadcast` (src/agent_server.py lines 87-89,
identical in src/test/test_refactoring_code_2.py lines 216-222) as a
function of the registry and of which sends fail: `asyncio.gather`
schedules `send_text` for every registered connection and does not cancel
the others when one raises, so every non-failing connection receives the
message; with `return_exceptions` left at `False`, `gather` re-raises the
first exception to the caller of `broadcast`; no connection is removed
from `active_connections`. -/
def broadcast (conns : List Subscriber) (sendFails : Subscriber → Bool)
    (_message : String) : BroadcastResult :=
  if conns.isEmpty then
    { delivered := [], connectionsAfter := conns, raised := false }
  else
    { delivered := conns.filter (fun c => !sendFails c),
      connectionsAfter := conns,
      raised := conns.any sendFails }

/-- Method `ConnectionManager.disconnect` (src/agent_server.py lines 84-86):
remove the connection from the registry if present (removal happens only
here, on an observed disconnect — never inside `broadcast`). -/
def disconnect (conns : List Subscriber) (websocket : Subscriber) :
    List Subscriber :=
  if conns.contains websocket then conns.erase websocket else conns

/-- Function `execute_refactor_logic` (src/test/test_refactoring_code_2.py lines
184-199) as a function of the outcomes of its two file reads and of its
`subprocess.run` call.  A failure is returned as a rendered error string
(there is no typed outcome in this variant); the `except` clauses are
tried in source order. -/
def execute_refactor_logic (promptRead targetRead : Except PyExc String)
    (_home : String) (_pathExists : String → Bool) (run : RunOutcome) : String :=
  match promptRead with
  | .error (.fileNotFound _) => "エラー: コマンドまたはファイルが見つかりません。"
  | .error e => "予期せぬエラーが発生しました: " ++ strOfPyExc e
  | .ok _prompt =>
    match targetRead with
    | .error (.fileNotFound _) => "エラー: コマンドまたはファイルが見つかりません。"
    | .error e => "予期せぬエラーが発生しました: " ++ strOfPyExc e
    | .ok _original_code =>
      match run with
      | .completed out _err => out
      | .raised (.fileNotFound _) => "エラー: コマンドまたはファイルが見つかりません。"
      | .raised (.calledProcessError _ out err) =>
          "リファクタリングコマンドの実行に失敗しました: " ++ pyOrS err out
      | .raised (.other m) => "予期せぬエラーが発生しました: " ++ m

/-- The generic error text published by `pipeline_refactor`'s catch-all
`except` clause (src/agent_server.py lines 129-131):
`f"サーバー内部で予期せぬエラーが発生しました: {type(e).__name__}: {e}"`. -/
def renderInternalError (e : PyExc) : String :=
  "サーバー内部で予期せぬエラーが発生しました: " ++ pyExcTypeName e ++ ": " ++ strOfPyExc e

/-- Function `pipeline_refactor` (src/agent_server.py lines 93-132) as a function
of the outcomes of its external interactions, returning the sequence of
payloads it broadcasts in order.  `targetReads k` is the content (or
exception) produced by the k-th read of the target file in chronological
order; this pipeline reads the target file exactly once and always
returns `Except.ok` because of its catch-all `except` clause (broadcasts
themselves are taken to succeed here; a failing subscriber is the subject
of `broadcast`).  On a transformation failure the published text is
`result.stderr or str(result.error)` and the pipeline returns without
computing a diff; on success the diff of the originally read text against
the tool's stdout is published together with the full transformed text. -/
def pipeline_refactor (filename task_id : String)
    (promptRead : Except PyExc String) (targetReads : Nat → Except PyExc String)
    (home : String) (pathExists : String → Bool) (run : RunOutcome) :
    Except String (List Payload) :=
  let m1 := create_message_payload task_id filename "status"
    [("message", "変更を検知: '" ++ filename ++ "'。処理を開始します...")]
  match promptRead with
  | .error e => .ok [m1, create_message_payload task_id filename "error"
      [("error", renderInternalError e)]]
  | .ok prompt =>
    match targetReads 0 with
    | .error e => .ok [m1, create_message_payload task_id filename "error"
        [("error", renderInternalError e)]]
    | .ok original_code =>
      let input_data := construct_gemini_input prompt original_code
      let command := determine_gemini_command home pathExists
      let m2 := create_message_payload task_id filename "status"
        [("message", "Geminiに関数型リファクタリングを依頼中...")]
      let result := execute_refactor_subprocess command input_data run
      if result.is_successful then
        let refactored_code := result.stdout
        let m3 := create_message_payload task_id filename "status"
          [("message", "差分を生成中...")]
        let diff_text := generate_diff original_code refactored_code filename
        .ok [m1, m2, m3, create_message_payload task_id filename "diff"
          [("diff", diff_text), ("refactored_code", refactored_code)]]
      else
        let error_message := pyOrS result.stderr (strOfOptExc result.error)
        .ok [m1, m2, create_message_payload task_id filename "error"
          [("error", error_message)]]

/-- Function `process_refactoring_pipeline` (src/test/test_refactoring_code_2.py
lines 226-267) as a function of the outcomes of its external
interactions.  `mtime` is the result of the guarded `os.path.getmtime`
(`none` when the file has vanished and `FileNotFoundError` is raised);
`targetReads` is indexed as in `pipeline_refactor`: index 0 is the read
performed inside `execute_refactor_logic`, index 1 the re-read performed
after the transformation, just before computing the diff.  The `notify`
helper always publishes messages of type `status`, including the one
carrying the error HTML; a failed re-read would escape the coroutine
(`Except.error`), as this variant has no catch-all. -/
def process_refactoring_pipeline (filename : String) (mtime : Option Nat)
    (promptRead : Except PyExc String) (targetReads : Nat → Except PyExc String)
    (home : String) (pathExists : String → Bool) (run : RunOutcome) :
    Except PyExc (List Payload) :=
  match mtime with
  | none => .ok []
  | some t =>
    let task_id := generate_task_id filename t
    let m1 := create_payload task_id "status" filename "message"
      ("変更を検知: '" ++ filename ++ "'。処理を開始します...")
    let m2 := create_payload task_id "status" filename "message"
      "Geminiに関数型リファクタリングを依頼中... (これには十数秒かかることがあります)"
    let refactored_code :=
      execute_refactor_logic promptRead (targetReads 0) home pathExists run
    if pyIn "エラー" refactored_code || pyIn "失敗しました" refactored_code then
      .ok [m1, m2, create_payload task_id "status" filename "message"
        (format_error_html refactored_code)]
    else
      let m3 := create_payload task_id "status" filename "message" "差分を生成中..."
      match targetReads 1 with
      | .error e => .error e
      | .ok original_code =>
        let diff_text := calculate_diff original_code refactored_code filename
        .ok [m1, m2, m3, create_payload task_id "diff" filename "diff" diff_text]

/-- Function `generate_task_id` of src/agent_server.py (lines 26-27) as called on a
`Path`: it performs `file_path.stat()`, which raises `FileNotFoundError`
when the file has vanished (`statMtime = none`); on success it renders
`f"task-{file_path.name}-{mtime}"`. -/
def generate_task_id_stat (name : String) (statMtime : Option Nat) :
    Except String String :=
  match statMtime with
  | none => .error "FileNotFoundError"
  | some t => .ok (generate_task_id name t)

/-- A pipeline run scheduled onto the event loop by
`asyncio.run_coroutine_threadsafe`. -/
structure ScheduledRun where
  path : String
  task_id : String
deriving DecidableEq

/-- Method `RefactorEventHandler.on_modified` of src/agent_server.py (lines
137-142) as a function of the event and of the `stat` outcome: ineligible
events are ignored; otherwise `generate_task_id` is called *before* the
pipeline is scheduled, with no exception handler, so on a vanished file
the `FileNotFoundError` from `file_path.stat()` propagates out of the
watchdog callback (`Except.error`) and no run is scheduled. -/
def on_modified_agent (event : ChangeEvent) (statMtime : Option Nat) :
    Except String (Option ScheduledRun) :=
  if !is_watchable_file event then .ok none
  else
    match generate_task_id_stat (pathName event.src_path) statMtime with
    | .error e => .error e
    | .ok task_id => .ok (some { path := event.src_path, task_id := task_id })

/-! ### Helper lemmas about the Python-primitive models -/

theorem pyStartsWith_iff (s pre : String) :
    pyStartsWith s pre = true ↔ pre.data <+: s.data := by
  simp [pyStartsWith]

theorem pyEndsWith_iff (s suf : String) :
    pyEndsWith s suf = true ↔ suf.data <:+ s.data := by
  simp [pyEndsWith]

theorem pyInAux_iff (needle hay : List Char) :
    pyInAux needle hay = true ↔ needle <:+: hay := by
  induction hay with
  | nil => simp [pyInAux, List.infix_nil]
  | cons c rest ih =>
      simp [pyInAux, ih, List.infix_cons_iff]

theorem pyIn_iff (needle hay : String) :
    pyIn needle hay = true ↔ needle.data <:+: hay.data :=
  pyInAux_iff needle.data hay.data

theorem pyIn_append_left (needle c x : String) (h : pyIn needle c = true) :
    pyIn needle (c ++ x) = true := by
  rw [pyIn_iff] at h ⊢
  rw [String.data_append]
  exact h.trans (List.prefix_append c.data x.data).isInfix

theorem toDigitsCore_eq_toDigitsList (fuel : Nat) :
    ∀ (n : Nat) (ds : List Char), n < fuel →
      Nat.toDigitsCore 10 fuel n ds = toDigitsList n ++ ds := by
  induction fuel with
  | zero => intro n ds h; omega
  | succ f ih =>
      intro n ds h
      rw [Nat.toDigitsCore]
      by_cases h10 : n / 10 = 0
      · have hn : n < 10 := by omega
        simp only [h10, if_pos rfl]
        rw [toDigitsList, dif_pos hn, Nat.mod_eq_of_lt hn]
        rfl
      · have hn : ¬ n < 10 := by
          intro hc
          exact h10 (Nat.div_eq_of_lt hc)
        simp only [if_neg h10]
        have hlt : n / 10 < f := by
          have h1 : n / 10 < n := Nat.div_lt_self (by omega) (by omega)
          omega
        rw [ih (n / 10) _ hlt]
        conv_rhs => rw [toDigitsList]
        rw [dif_neg hn]
        simp

theorem digitVal_digitChar (n : Nat) (h : n < 10) :
    digitVal (Nat.digitChar n) = n := by
  interval_cases n <;> rfl

theorem parseDigits_toDigitsList (n : Nat) :
    parseDigits (toDigitsList n) = n := by
  induction n using Nat.strong_induction_on with
  | _ n ih =>
      by_cases h : n < 10
      · rw [toDigitsList, dif_pos h]
        simp [parseDigits, digitVal_digitChar n h]
      · rw [toDigitsList, dif_neg h]
        have hdiv : n / 10 < n := Nat.div_lt_self (by omega) (by omega)
        have hmod : n % 10 < 10 := Nat.mod_lt _ (by omega)
        unfold parseDigits at *
        rw [List.foldl_append]
        simp only [List.foldl_cons, List.foldl_nil]
        rw [ih (n / 10) hdiv, digitVal_digitChar _ hmod]
        omega

theorem toDigitsList_injective (m n : Nat)
    (h : toDigitsList m = toDigitsList n) : m = n := by
  have := congrArg parseDigits h
  rwa [parseDigits_toDigitsList, parseDigits_toDigitsList] at this

theorem natRepr_injective (m n : Nat) (h : Nat.repr m = Nat.repr n) : m = n := by
  apply toDigitsList_injective
  have hm : Nat.toDigits 10 m = toDigitsList m := by
    have := toDigitsCore_eq_toDigitsList (m + 1) m [] (by omega)
    simpa [Nat.toDigits] using this
  have hn : Nat.toDigits 10 n = toDigitsList n := by
    have := toDigitsCore_eq_toDigitsList (n + 1) n [] (by omega)
    simpa [Nat.toDigits] using this
  have hdata := congrArg String.data h
  simp only [Nat.repr, List.asString] at hdata
  rw [← hm, ← hn]
  exact hdata

theorem string_append_left_cancel (a b c : String) (h : a ++ b = a ++ c) :
    b = c := by
  apply String.ext
  have := congrArg String.data h
  simp only [String.data_append] at this
  exact (List.append_right_inj a.data).mp this

theorem string_append_ne_empty_left (a b : String) (ha : a ≠ "") :
    a ++ b ≠ "" := by
  intro h
  apply ha
  have hd := congrArg String.data h
  simp only [String.data_append] at hd
  have h2 := List.append_eq_nil.mp hd
  apply String.ext
  simp [h2.1]

theorem string_join_cons (s : String) (l : List String) :
    String.join (s :: l) = s ++ String.join l := by
  have key : ∀ (l : List String) (acc : String),
      l.foldl (fun r t => r ++ t) acc = acc ++ l.foldl (fun r t => r ++ t) "" := by
    intro l
    induction l with
    | nil => intro acc; simp [List.foldl_nil]
    | cons a as ih =>
        intro acc
        simp only [List.foldl_cons]
        rw [ih (acc ++ a), ih ("" ++ a)]
        simp [String.append_assoc]
  simp only [String.join, List.foldl_cons]
  rw [key l ("" ++ s)]
  simp

theorem pyOrS_ne_empty_left (a b : String) (ha : a ≠ "") : pyOrS a b ≠ "" := by
  unfold pyOrS
  rw [if_neg ha]
  exact ha

theorem pyOrS_ne_empty_right (a b : String) (hb : b ≠ "") : pyOrS a b ≠ "" := by
  unfold pyOrS
  split
  · exact hb
  · rename_i h
    exact h

/-- Every failure string returned by `execute_refactor_logic` contains one
of the two keywords that `process_refactoring_pipeline`'s substring check
looks for, so a failed transformation always takes the error branch. -/
theorem execute_refactor_logic_raised_keyword
    (prompt orig home : String) (pathExists : String → Bool) (e : PyExc) :
    (pyIn "エラー" (execute_refactor_logic (Except.ok prompt) (Except.ok orig)
        home pathExists (RunOutcome.raised e)) ||
     pyIn "失敗しました" (execute_refactor_logic (Except.ok prompt) (Except.ok orig)
        home pathExists (RunOutcome.raised e))) = true := by
  cases e with
  | fileNotFound m =>
      show (pyIn "エラー" "エラー: コマンドまたはファイルが見つかりません。" ||
        pyIn "失敗しました" "エラー: コマンドまたはファイルが見つかりません。") = true
      decide
  | calledProcessError code sout serr =>
      have hk := pyIn_append_left "失敗しました"
        "リファクタリングコマンドの実行に失敗しました: " (pyOrS serr sout) (by decide)
      show (pyIn "エラー" ("リファクタリングコマンドの実行に失敗しました: " ++ pyOrS serr sout) ||
        pyIn "失敗しました" ("リファクタリングコマンドの実行に失敗しました: " ++ pyOrS serr sout)) = true
      rw [hk, Bool.or_true]
  | other m =>
      have hk := pyIn_append_left "エラー" "予期せぬエラーが発生しました: " m (by decide)
      show (pyIn "エラー" ("予期せぬエラーが発生しました: " ++ m) ||
        pyIn "失敗しました" ("予期せぬエラーが発生しました: " ++ m)) = true
      rw [hk, Bool.true_or]

/-! ### The claims -/

/-- C1, counterexample: with two registered subscribers of which the first
one's `send_text` fails, `broadcast` raises to its caller (`asyncio.gather`
re-raises the first exception) and the failing subscriber is *not* removed
from the registry — refuting the claim that the failure is not propagated
and that the failing subscriber is removed.  The other subscriber does
still receive the message. -/
theorem broadcast_send_failure_counterexample :
    (broadcast [0, 1] (fun c => c == 0) "msg").raised = true ∧
    (broadcast [0, 1] (fun c => c == 0) "msg").connectionsAfter = [0, 1] ∧
    (broadcast [0, 1] (fun c => c == 0) "msg").delivered = [1] := by
  decide

/-- C1, amended: `broadcast` issues the send to every currently-registered
subscriber and every subscriber whose send does not fail receives the
message even when another subscriber's send fails; but the registry is
left unchanged (the failing subscriber is not removed by `broadcast`;
removal happens only in `disconnect`), and `broadcast` raises to its
caller exactly when some registered subscriber's send fails.  With zero
subscribers it is a no-op. -/
theorem broadcast_delivery_spec (conns : List Subscriber)
    (sendFails : Subscriber → Bool) (message : String) :
    (∀ c ∈ conns, sendFails c = false →
        c ∈ (broadcast conns sendFails message).delivered) ∧
    (∀ c ∈ (broadcast conns sendFails message).delivered,
        c ∈ conns ∧ sendFails c = false) ∧
    (broadcast conns sendFails message).connectionsAfter = conns ∧
    ((broadcast conns sendFails message).raised = true ↔
        ∃ c ∈ conns, sendFails c = true) := by
  unfold broadcast
  by_cases h : conns.isEmpty
  · have hnil : conns = [] := List.isEmpty_iff.mp h
    subst hnil
    simp
  · simp only [if_neg h]
    refine ⟨?_, ?_, ?_, ?_⟩
    · intro c hc hf
      simp [List.mem_filter, hc, hf]
    · intro c hc
      rw [List.mem_filter] at hc
      exact ⟨hc.1, by simpa using hc.2⟩
    · trivial
    · simp [List.any_eq_true]

/-- C1, witness for `broadcast_delivery_spec` at a concrete registry. -/
theorem broadcast_delivery_spec_witness :
    0 ∈ (broadcast [0, 1] (fun c => c == 1) "m").delivered ∧
    (broadcast [0, 1] (fun c => c == 1) "m").connectionsAfter = [0, 1] :=
  ⟨(broadcast_delivery_spec [0, 1] (fun c => c == 1) "m").1 0 (by decide) (by decide),
   (broadcast_delivery_spec [0, 1] (fun c => c == 1) "m").2.2.1⟩

/-- C2, counterexample: a run of `process_refactoring_pipeline` (the
second implementation) in which the file's content changes between the
pre-transformation read ("old") and the post-transformation re-read
("new"): the published `diff` message carries the diff of the *re-read*
text against the tool output, which differs from the diff of the
originally read text — refuting the claim for this pipeline. -/
theorem variant_pipeline_reread_counterexample :
    process_refactoring_pipeline "foo.py" (some 100) (Except.ok "p")
        (fun k => if k == 0 then Except.ok "old\n" else Except.ok "new\n") "/home/u"
        (fun _ => false) (RunOutcome.completed "ref\n" "")
      = Except.ok
          [create_payload "task-foo.py-100" "status" "foo.py" "message"
             "変更を検知: 'foo.py'。処理を開始します...",
           create_payload "task-foo.py-100" "status" "foo.py" "message"
             "Geminiに関数型リファクタリングを依頼中... (これには十数秒かかることがあります)",
           create_payload "task-foo.py-100" "status" "foo.py" "message" "差分を生成中...",
           create_payload "task-foo.py-100" "diff" "foo.py" "diff"
             (calculate_diff "new\n" "ref\n" "foo.py")] ∧
    calculate_diff "new\n" "ref\n" "foo.py" ≠ calculate_diff "old\n" "ref\n" "foo.py" := by
  exact ⟨rfl, by decide⟩

/-- C2, amended: on a successful transformation, `pipeline_refactor`
(src/agent_server.py) publishes as its final message a `diff` whose diff
text is computed against the source text read *before* the transformation
(read index 0), whereas `process_refactoring_pipeline`
(src/test/test_refactoring_code_2.py) re-reads the file after the
transformation completes and computes the published diff against that
re-read text (read index 1). -/
theorem pipeline_diff_source_text
    (fn tid prompt orig later home out err : String)
    (pathExists : String → Bool) (t : Nat)
    (h1 : pyIn "エラー" out = false) (h2 : pyIn "失敗しました" out = false) :
    (pipeline_refactor fn tid (Except.ok prompt)
        (fun k => if k == 0 then Except.ok orig else Except.ok later)
        home pathExists (RunOutcome.completed out err)).map List.getLast?
      = Except.ok (some (create_message_payload tid fn "diff"
          [("diff", generate_diff orig out fn), ("refactored_code", out)])) ∧
    (process_refactoring_pipeline fn (some t) (Except.ok prompt)
        (fun k => if k == 0 then Except.ok orig else Except.ok later)
        home pathExists (RunOutcome.completed out err)).map List.getLast?
      = Except.ok (some (create_payload (generate_task_id fn t) "diff" fn "diff"
          (calculate_diff later out fn))) := by
  constructor
  · rfl
  · have hcond : (pyIn "エラー" out || pyIn "失敗しました" out) = false := by
      simp [h1, h2]
    have e0 : (if ((0 : Nat) == 0) = true then (Except.ok orig : Except PyExc String)
        else Except.ok later) = Except.ok orig := rfl
    have e1 : (if ((1 : Nat) == 0) = true then (Except.ok orig : Except PyExc String)
        else Except.ok later) = Except.ok later := rfl
    unfold process_refactoring_pipeline
    simp only [execute_refactor_logic, e0, e1, hcond, Bool.false_eq_true, if_false]
    rfl

/-- C2, witness for `pipeline_diff_source_text` at a concrete run. -/
theorem pipeline_diff_source_text_witness :
    (process_refactoring_pipeline "foo.py" (some 100) (Except.ok "p")
        (fun k => if k == 0 then Except.ok "old\n" else Except.ok "new\n")
        "/home/u" (fun _ => false) (RunOutcome.completed "ref\n" "")).map List.getLast?
      = Except.ok (some (create_payload (generate_task_id "foo.py" 100) "diff" "foo.py" "diff"
          (calculate_diff "new\n" "ref\n" "foo.py"))) :=
  (pipeline_diff_source_text "foo.py" "tid" "p" "old\n" "new\n" "/home/u" "ref\n" ""
    (fun _ => false) 100 (by decide) (by decide)).2

/-- C3, counterexample: a failing run of `process_refactoring_pipeline`
(the tool binary is absent) publishes three messages all of type `status`
— the failure is delivered through the `notify` helper as a `status`
message carrying error HTML — and publishes no message of type `error`,
refuting the claim for this pipeline. -/
theorem variant_pipeline_failure_status_counterexample :
    (process_refactoring_pipeline "foo.py" (some 100) (Except.ok "p")
        (fun _ => Except.ok "c\n") "/home/u" (fun _ => false)
        (RunOutcome.raised (PyExc.fileNotFound "fnf"))).map (fun ms => ms.map Payload.type)
      = Except.ok ["status", "status", "status"] ∧
    (process_refactoring_pipeline "foo.py" (some 100) (Except.ok "p")
        (fun _ => Except.ok "c\n") "/home/u" (fun _ => false)
        (RunOutcome.raised (PyExc.fileNotFound "fnf"))).map
          (fun ms => ms.filter (fun p => p.type == "error"))
      = Except.ok [] := by
  exact ⟨rfl, rfl⟩

/-- C3, amended: for every classified transformation failure,
`pipeline_refactor` (src/agent_server.py) publishes exactly the sequence
`status`, `status`, `error`, the final `error` message carrying the
non-empty text `result.stderr or str(result.error)`, and no `diff`
message; `process_refactoring_pipeline`
(src/test/test_refactoring_code_2.py) likewise publishes no `diff`
message, but it delivers the failure as a third message of type `status`
carrying the error rendered as HTML, publishing no `error`-typed message
at all. -/
theorem pipeline_failure_error_no_diff
    (fn tid prompt orig home : String) (pathExists : String → Bool)
    (e : PyExc) (t : Nat) :
    (pipeline_refactor fn tid (Except.ok prompt) (fun _ => Except.ok orig)
        home pathExists (RunOutcome.raised e)).map (fun ms => ms.map Payload.type)
      = Except.ok ["status", "status", "error"] ∧
    (pipeline_refactor fn tid (Except.ok prompt) (fun _ => Except.ok orig)
        home pathExists (RunOutcome.raised e)).map List.getLast?
      = Except.ok (some (create_message_payload tid fn "error" [("error",
          pyOrS (execute_refactor_subprocess (determine_gemini_command home pathExists)
              (construct_gemini_input prompt orig) (RunOutcome.raised e)).stderr
            (strOfOptExc (execute_refactor_subprocess (determine_gemini_command home pathExists)
              (construct_gemini_input prompt orig) (RunOutcome.raised e)).error))])) ∧
    pyOrS (execute_refactor_subprocess (determine_gemini_command home pathExists)
        (construct_gemini_input prompt orig) (RunOutcome.raised e)).stderr
      (strOfOptExc (execute_refactor_subprocess (determine_gemini_command home pathExists)
        (construct_gemini_input prompt orig) (RunOutcome.raised e)).error) ≠ "" ∧
    (process_refactoring_pipeline fn (some t) (Except.ok prompt) (fun _ => Except.ok orig)
        home pathExists (RunOutcome.raised e)).map (fun ms => ms.map Payload.type)
      = Except.ok ["status", "status", "status"] ∧
    (process_refactoring_pipeline fn (some t) (Except.ok prompt) (fun _ => Except.ok orig)
        home pathExists (RunOutcome.raised e)).map List.getLast?
      = Except.ok (some (create_payload (generate_task_id fn t) "status" fn "message"
          (format_error_html (execute_refactor_logic (Except.ok prompt) (Except.ok orig)
            home pathExists (RunOutcome.raised e))))) := by
  have hcond := execute_refactor_logic_raised_keyword prompt orig home pathExists e
  have hvar : process_refactoring_pipeline fn (some t) (Except.ok prompt)
      (fun _ => Except.ok orig) home pathExists (RunOutcome.raised e)
      = Except.ok [create_payload (generate_task_id fn t) "status" fn "message"
          ("変更を検知: '" ++ fn ++ "'。処理を開始します..."),
        create_payload (generate_task_id fn t) "status" fn "message"
          "Geminiに関数型リファクタリングを依頼中... (これには十数秒かかることがあります)",
        create_payload (generate_task_id fn t) "status" fn "message"
          (format_error_html (execute_refactor_logic (Except.ok prompt) (Except.ok orig)
            home pathExists (RunOutcome.raised e)))] := by
    unfold process_refactoring_pipeline
    simp only [hcond, if_true]
  refine ⟨?_, ?_, ?_, ?_, ?_⟩
  · cases e with
    | fileNotFound m => rfl
    | other m => rfl
    | calledProcessError code sout serr =>
        have hs : (execute_refactor_subprocess (determine_gemini_command home pathExists)
            (construct_gemini_input prompt orig)
            (RunOutcome.raised (PyExc.calledProcessError code sout serr))).is_successful
            = false := by
          simp [execute_refactor_subprocess, SubprocessResult.is_successful]
        unfold pipeline_refactor
        simp only [hs, Bool.false_eq_true, if_false]
        rfl
  · cases e with
    | fileNotFound m => rfl
    | other m => rfl
    | calledProcessError code sout serr =>
        have hs : (execute_refactor_subprocess (determine_gemini_command home pathExists)
            (construct_gemini_input prompt orig)
            (RunOutcome.raised (PyExc.calledProcessError code sout serr))).is_successful
            = false := by
          simp [execute_refactor_subprocess, SubprocessResult.is_successful]
        unfold pipeline_refactor
        simp only [hs, Bool.false_eq_true, if_false]
        rfl
  · cases e with
    | fileNotFound m =>
        refine pyOrS_ne_empty_left _ _ ?_
        show "コマンド '" ++ (determine_gemini_command home pathExists).headD ""
          ++ "' が見つかりません。" ≠ ""
        exact string_append_ne_empty_left _ _ (string_append_ne_empty_left _ _ (by decide))
    | other m =>
        refine pyOrS_ne_empty_left _ _ ?_
        show "予期せぬサブプロセスエラーが発生しました: " ++ m ≠ ""
        exact string_append_ne_empty_left _ _ (by decide)
    | calledProcessError code sout serr =>
        refine pyOrS_ne_empty_right _ _ ?_
        show "Command returned non-zero exit status " ++ toString code ++ "." ≠ ""
        exact string_append_ne_empty_left _ _ (string_append_ne_empty_left _ _ (by decide))
  · rw [hvar]
    rfl
  · rw [hvar]
    rfl

/-- C3, witness for `pipeline_failure_error_no_diff` at a concrete failing
run (exit status 1 with stderr "syntax error"). -/
theorem pipeline_failure_error_no_diff_witness :
    (pipeline_refactor "foo.py" "tid" (Except.ok "p") (fun _ => Except.ok "c\n")
        "/home/u" (fun _ => false)
        (RunOutcome.raised (PyExc.calledProcessError 1 "" "syntax error"))).map
          (fun ms => ms.map Payload.type)
      = Except.ok ["status", "status", "error"] :=
  (pipeline_failure_error_no_diff "foo.py" "tid" "p" "c\n" "/home/u" (fun _ => false)
    (PyExc.calledProcessError 1 "" "syntax error") 100).1

/-- C4, counterexample: the `subprocess.run` invocations of both
`execute_refactor_subprocess` and `run_subprocess` pass no `timeout`
argument (it is `None`), so no bounded execution timeout is applied —
refuting the claim that every invocation has a bounded maximum duration. -/
theorem subprocess_call_no_timeout_counterexample :
    (execute_refactor_subprocess_runCall ["gemini"] "input").timeout = none ∧
    (run_subprocess_runCall ["gemini"] "input").timeout = none := by
  decide

/-- C4, amended: the external-tool subprocess call carries no timeout at
all (`timeout=None` in both implementations), so it can block
indefinitely; the generic `except Exception` clause does classify any
other unexpected invocation error as an unexpected failure. -/
theorem subprocess_call_timeout_none (c : List String) (i m : String) :
    (execute_refactor_subprocess_runCall c i).timeout = none ∧
    (run_subprocess_runCall c i).timeout = none ∧
    (execute_refactor_subprocess c i (RunOutcome.raised (PyExc.other m))).is_successful = false ∧
    (execute_refactor_subprocess c i (RunOutcome.raised (PyExc.other m))).error
      = some (PyExc.other m) := by
  refine ⟨rfl, rfl, ?_, rfl⟩
  simp [execute_refactor_subprocess, SubprocessResult.is_successful]

/-- C5: the outcome classification of an ExternalTransformer invocation.
Exit status zero gives a successful result carrying the process stdout; a
missing executable gives a failed result holding the `FileNotFoundError`;
a non-zero exit gives a failed result carrying the exit code, the stderr
and the stdout — and in `execute_refactor_logic` the rendered failure
detail is the stderr or, when the stderr is empty, the stdout; any other
invocation error gives a failed result with a descriptive message. -/
theorem subprocess_outcome_classification
    (c : List String) (i out err m p t home : String) (code : Int)
    (pathExists : String → Bool) :
    ((execute_refactor_subprocess c i (RunOutcome.completed out err)).is_successful = true ∧
     (execute_refactor_subprocess c i (RunOutcome.completed out err)).stdout = out) ∧
    ((execute_refactor_subprocess c i (RunOutcome.raised (PyExc.fileNotFound m))).is_successful = false ∧
     (execute_refactor_subprocess c i (RunOutcome.raised (PyExc.fileNotFound m))).error
       = some (PyExc.fileNotFound m)) ∧
    ((execute_refactor_subprocess c i (RunOutcome.raised (PyExc.calledProcessError code out err))).is_successful = false ∧
     (execute_refactor_subprocess c i (RunOutcome.raised (PyExc.calledProcessError code out err))).returncode = code ∧
     (execute_refactor_subprocess c i (RunOutcome.raised (PyExc.calledProcessError code out err))).stderr = err ∧
     (execute_refactor_subprocess c i (RunOutcome.raised (PyExc.calledProcessError code out err))).stdout = out) ∧
    (execute_refactor_logic (Except.ok p) (Except.ok t) home pathExists
        (RunOutcome.raised (PyExc.calledProcessError code out err))
      = "リファクタリングコマンドの実行に失敗しました: " ++ pyOrS err out) ∧
    ((execute_refactor_subprocess c i (RunOutcome.raised (PyExc.other m))).is_successful = false ∧
     (execute_refactor_subprocess c i (RunOutcome.raised (PyExc.other m))).error = some (PyExc.other m) ∧
     (execute_refactor_subprocess c i (RunOutcome.raised (PyExc.other m))).stderr
       = "予期せぬサブプロセスエラーが発生しました: " ++ m) := by
  refine ⟨⟨rfl, rfl⟩, ⟨?_, rfl⟩, ⟨?_, rfl, rfl, rfl⟩, rfl, ⟨?_, rfl, rfl⟩⟩ <;>
    simp [execute_refactor_subprocess, SubprocessResult.is_successful]

/-- C6, counterexample: the change event for the file
`my_agent_server.py` is a file event with the watched `.py` extension and
is not the service's own implementation file (its name is not
`agent_server.py`), yet `is_watchable_file` rejects it, because the check
is a substring test for `agent_server.py` anywhere in the path — refuting
the claim that no other eligible `.py` source file is rejected. -/
theorem is_watchable_file_substring_counterexample :
    spec_isEligible { src_path := "my_agent_server.py", is_directory := false } = true ∧
    is_watchable_file { src_path := "my_agent_server.py", is_directory := false } = false := by
  decide

/-- C6, amended: `is_watchable_file` is true exactly when the event is a
file event, the path ends with `.py`, and the string `agent_server.py`
does not occur as a substring *anywhere* in the path — so `.py` files
other than the service's own implementation file are also rejected
whenever their path merely contains that substring. -/
theorem is_watchable_file_characterization (e : ChangeEvent) :
    is_watchable_file e = true ↔
      e.is_directory = false ∧ ".py".data <:+ e.src_path.data ∧
        ¬ "agent_server.py".data <:+: e.src_path.data := by
  simp only [is_watchable_file, Bool.and_eq_true, Bool.not_eq_true']
  rw [pyEndsWith_iff]
  constructor
  · rintro ⟨⟨hd, hs⟩, hin⟩
    refine ⟨hd, hs, ?_⟩
    intro hc
    rw [← pyIn_iff] at hc
    rw [hc] at hin
    exact Bool.noConfusion hin
  · rintro ⟨hd, hs, hin⟩
    refine ⟨⟨hd, hs⟩, ?_⟩
    by_cases hb : pyIn "agent_server.py" e.src_path
    · exact absurd ((pyIn_iff _ _).mp hb) hin
    · simpa using hb

/-- C6, witness for `is_watchable_file_characterization` at a concrete
eligible path. -/
theorem is_watchable_file_characterization_witness :
    is_watchable_file { src_path := "/watched/example.py", is_directory := false } = true :=
  (is_watchable_file_characterization _).mpr (by refine ⟨rfl, ?_, ?_⟩ <;> decide)

/-- C7, counterexample: in src/agent_server.py the stage-0
modification-time lookup happens inside the watchdog callback
(`generate_task_id` called from `on_modified`) with no exception handler,
so when the file has disappeared the `FileNotFoundError` raised by
`file_path.stat()` escapes the callback instead of being silently
swallowed — refuting the claim that no exception escapes.  (No message is
published and no pipeline run is scheduled, so the "no message" half of
the claim does hold.) -/
theorem on_modified_vanished_file_counterexample :
    on_modified_agent { src_path := "foo.py", is_directory := false } none
      = Except.error "FileNotFoundError" := by
  rfl

/-- C7, amended: when the watched file has disappeared before the stage-0
modification-time lookup, `process_refactoring_pipeline`
(src/test/test_refactoring_code_2.py) catches the `FileNotFoundError` and
aborts silently — it returns normally and publishes no message of any
type; in src/agent_server.py the lookup happens in
`RefactorEventHandler.on_modified` before the pipeline is scheduled, and
there the `FileNotFoundError` propagates out of the callback uncaught
(though no message is published and no run starts). -/
theorem vanished_file_silent_abort
    (fn home : String) (promptRead : Except PyExc String)
    (targetReads : Nat → Except PyExc String) (pathExists : String → Bool)
    (run : RunOutcome) (e : ChangeEvent) (h : is_watchable_file e = true) :
    process_refactoring_pipeline fn none promptRead targetReads home pathExists run
      = Except.ok [] ∧
    on_modified_agent e none = Except.error "FileNotFoundError" := by
  constructor
  · rfl
  · unfold on_modified_agent
    rw [h]
    rfl

/-- C7, witness for `vanished_file_silent_abort` at a concrete run. -/
theorem vanished_file_silent_abort_witness :
    process_refactoring_pipeline "foo.py" none (Except.ok "p") (fun _ => Except.ok "c")
        "/h" (fun _ => false) (RunOutcome.completed "o" "")
      = Except.ok [] ∧
    on_modified_agent { src_path := "bar.py", is_directory := false } none
      = Except.error "FileNotFoundError" :=
  vanished_file_silent_abort "foo.py" "/h" (Except.ok "p") (fun _ => Except.ok "c")
    (fun _ => false) (RunOutcome.completed "o" "")
    { src_path := "bar.py", is_directory := false } (by decide)

/-- C8: `generate_task_id` maps distinct modification timestamps of the
same filename to distinct task ids, and equal `(filename, timestamp)`
inputs to equal task ids. -/
theorem generate_task_id_distinct_mtimes :
    (∀ (name : String) (t1 t2 : Nat), t1 ≠ t2 →
        generate_task_id name t1 ≠ generate_task_id name t2) ∧
    (∀ (n1 n2 : String) (t1 t2 : Nat), n1 = n2 → t1 = t2 →
        generate_task_id n1 t1 = generate_task_id n2 t2) := by
  constructor
  · intro name t1 t2 h he
    exact h (natRepr_injective t1 t2
      (string_append_left_cancel ("task-" ++ name ++ "-") _ _ he))
  · intro n1 n2 t1 t2 h1 h2
    rw [h1, h2]

/-- C8, witness for `generate_task_id_distinct_mtimes` at concrete
timestamps 100 and 101. -/
theorem generate_task_id_distinct_mtimes_witness :
    generate_task_id "foo.py" 100 ≠ generate_task_id "foo.py" 101 :=
  generate_task_id_distinct_mtimes.1 "foo.py" 100 101 (by decide)

/-- C9, counterexample: the to-header of the diff produced by
`generate_diff` is `b/<filename> (refactored)`, not exactly
`b/<filename>`: on the inputs `"x\n"`, `"y\n"`, `"foo.py"` the output
contains the header line `+++ b/foo.py (refactored)` and does not contain
the line `+++ b/foo.py` — refuting the header half of the claim. -/
theorem generate_diff_toheader_counterexample :
    generate_diff "x\n" "y\n" "foo.py"
      = "--- a/foo.py\n+++ b/foo.py (refactored)\n@@ -1,1 +1,1 @@\n-x\n+y\n" ∧
    pyIn "+++ b/foo.py (refactored)\n" (generate_diff "x\n" "y\n" "foo.py") = true ∧
    pyIn "+++ b/foo.py\n" (generate_diff "x\n" "y\n" "foo.py") = false := by
  exact ⟨by decide, by decide, by decide⟩

/-- C9, amended: `generate_diff x x f` is the empty string for every text
`x` and filename `f`; and whenever the two texts split into different
line sequences, the produced diff text starts with the from-header
`--- a/<filename>` followed by the to-header
`+++ b/<filename> (refactored)`. -/
theorem generate_diff_headers_and_empty :
    (∀ (x f : String), generate_diff x x f = "") ∧
    (∀ (x y f : String), pySplitlinesKeepends x ≠ pySplitlinesKeepends y →
       pyStartsWith (generate_diff x y f)
         (("--- " ++ ("a/" ++ f) ++ "\n") ++ ("+++ " ++ ("b/" ++ f ++ " (refactored)") ++ "\n")) = true) := by
  constructor
  · intro x f
    unfold generate_diff difflib_unified_diff
    rw [if_pos rfl]
    rfl
  · intro x y f h
    unfold generate_diff difflib_unified_diff
    rw [if_neg h]
    rw [string_join_cons, string_join_cons,
        ← String.append_assoc ("--- " ++ ("a/" ++ f) ++ "\n")
          ("+++ " ++ ("b/" ++ f ++ " (refactored)") ++ "\n")
          (String.join (unifiedHunkBody (pySplitlinesKeepends x) (pySplitlinesKeepends y)))]
    rw [pyStartsWith_iff, String.data_append]
    exact List.prefix_append _ _

/-- C9, witness for `generate_diff_headers_and_empty` on two one-line
texts. -/
theorem generate_diff_headers_and_empty_witness :
    pyStartsWith (generate_diff "x\n" "y\n" "foo.py")
      (("--- " ++ ("a/" ++ "foo.py") ++ "\n") ++
        ("+++ " ++ ("b/" ++ "foo.py" ++ " (refactored)") ++ "\n")) = true :=
  generate_diff_headers_and_empty.2 "x\n" "y\n" "foo.py" (by decide)

/-- C10: `determine_gemini_command` ignores the home directory entirely:
joining `Path.home()` with the absolute path `/usr/local/bin/gemini`
discards the home component, so for every home directory the command is
`["/usr/local/bin/gemini"]` when that absolute path exists on disk and
`["gemini"]` otherwise. -/
theorem determine_gemini_command_ignores_home (home : String)
    (pathExists : String → Bool) :
    determine_gemini_command home pathExists =
      if pathExists "/usr/local/bin/gemini" then ["/usr/local/bin/gemini"]
      else ["gemini"] := by
  have h : posixPathJoin home "/usr/local/bin/gemini" = "/usr/local/bin/gemini" := by
    unfold posixPathJoin
    rw [if_pos (by decide)]
  unfold determine_gemini_command
  rw [h]

end AgentServer
